import Mathlib

/-!
Verification of the redora notification service (src/server.js).

The service is a bridge from a database change feed to a push-delivery
service.  We embed its functions shallowly:

* JavaScript string-or-absent values become `Option String`; JS truthiness
  (`undefined`, `null`, `""` are falsy) becomes `truthyStr` / `jsOr`.
* The Supabase profile lookup result `{data, error}` becomes `LookupResult`.
* The FCM message object becomes the record `FcmMessage`; its `data` object
  is an insertion-ordered association list whose JS-semantics lookup
  (later keys shadow earlier ones) is `objGet`.
* Effects are made explicit: `sendNotification` takes the lookup outcome and
  the delivery function as arguments and returns both its JS result
  (`Except` = throw/return) and the list of messages passed to the delivery
  service, so "never calls the push-delivery service" is expressible.
-/

namespace Redora

/-- JS truthiness for a string-or-absent value: `undefined`/`null`/`""` are
falsy, every other string is truthy. -/
def truthyStr (o : Option String) : Bool :=
  match o with
  | some s => s ≠ ""
  | none => false

/-- The JS expression `v || d` for a string-or-absent `v` and string `d`. -/
def jsOr (v : Option String) (d : String) : String :=
  match v with
  | some s => if s = "" then d else s
  | none => d

/-- A row of the `profiles` table as selected by `sendNotification`:
only the `fcm_token` column, which may be NULL. -/
structure Profile where
  fcm_token : Option String
  deriving DecidableEq, Repr

/-- The `{ data, error }` outcome of the Supabase
`.from('profiles').select('fcm_token').eq('id', userId).single()` call. -/
structure LookupResult where
  data : Option Profile
  error : Option String
  deriving DecidableEq, Repr

/-- The token check at server.js:57: the function bails out with `null`
unless `error` is falsy and `profiles?.fcm_token` is truthy.  Returns the
resolved token, or `none` in every bail-out case. -/
def resolveToken (r : LookupResult) : Option String :=
  if r.error.isSome then none
  else
    match r.data with
    | none => none
    | some p =>
      match p.fcm_token with
      | none => none
      | some t => if t = "" then none else some t

/-- The FCM message object built at server.js:68-84.  `data` keeps the
insertion order of the JS object literal (`type`, `title`, `body`, then the
spread of the aux data).  `notification` is FCM's native-display field; the
code never sets it, which the embedding records as `none`. -/
structure FcmMessage where
  data : List (String × String)
  token : String
  notification : Option (String × String)
  androidPriority : String
  apnsPriorityHeader : String
  deriving DecidableEq, Repr

/-- Lookup in a JS object represented as an insertion-ordered association
list: the last binding of a key wins, as with `{a: 1, ...{a: 2}}`. -/
def objGet (pairs : List (String × String)) (k : String) : Option String :=
  pairs.reverse.lookup k

/-- The message construction of server.js:68-84. -/
def buildMessage (title body ty : String) (aux : List (String × String))
    (tok : String) : FcmMessage :=
  { data := [("type", ty), ("title", title), ("body", body)] ++ aux
    token := tok
    notification := none
    androidPriority := "high"
    apnsPriorityHeader := "10" }

/-- `sendNotification` (server.js:46-94).  The profile lookup outcome and
the delivery call `admin.messaging().send` are passed in explicitly.  The
result pairs the JS outcome (`Except.error e` = the function throws `e`,
`Except.ok v` = it returns `v`) with the list of messages handed to the
delivery service during the call. -/
def sendNotification (userId title body ty : String)
    (aux : List (String × String)) (lookup : LookupResult)
    (deliver : FcmMessage → Except String String) :
    Except String (Option String) × List FcmMessage :=
  match resolveToken lookup with
  | none => (Except.ok none, [])
  | some tok =>
    let msg := buildMessage title body ty aux tok
    match deliver msg with
    | Except.ok resp => (Except.ok (some resp), [msg])
    | Except.error e => (Except.error e, [msg])

/-- The body of a `POST /api/notifications/send` request: each field may be
absent, and `data` is an optional JS object of string pairs. -/
structure SendRequest where
  userId : Option String
  title : Option String
  body : Option String
  type : Option String
  data : Option (List (String × String))
  deriving DecidableEq, Repr

/-- The three response shapes the manual-send route produces. -/
inductive HttpResponse where
  | badRequest : String → HttpResponse
  | ok : Option String → HttpResponse
  | serverError : String → HttpResponse
  deriving DecidableEq, Repr

/-- The `POST /api/notifications/send` handler (server.js:100-113):
truthiness validation of the four required fields, then dispatch; a thrown
dispatch error becomes a 500 with the error message.  The second component
again collects the delivery calls made. -/
def handlePostSend (req : SendRequest) (lookup : LookupResult)
    (deliver : FcmMessage → Except String String) :
    HttpResponse × List FcmMessage :=
  if !truthyStr req.userId || !truthyStr req.title || !truthyStr req.body
      || !truthyStr req.type then
    (HttpResponse.badRequest "Missing required fields", [])
  else
    let result := sendNotification (req.userId.getD "") (req.title.getD "")
      (req.body.getD "") (req.type.getD "") (req.data.getD []) lookup deliver
    (match result.1 with
      | Except.ok id => HttpResponse.ok id
      | Except.error e => HttpResponse.serverError e,
     result.2)

/-- The `titles` object of `getTitleForType` (server.js:160-166): its own
properties. -/
def titles : List (String × String) :=
  [("like", "❤️ New Like"), ("comment", "💬 New Comment"),
   ("follow", "👤 New Follower"), ("reply", "↩️ New Reply"),
   ("mention", "@️ Mention")]

/-- The `messages` object of `getMessageForType` (server.js:174-180): its
own properties. -/
def messages : List (String × String) :=
  [("like", "Someone liked your post"),
   ("comment", "Someone commented on your post"),
   ("follow", "Someone started following you"),
   ("reply", "Someone replied to your comment"),
   ("mention", "Someone mentioned you")]

/-- The property names every JS object literal inherits from
`Object.prototype`; reading one of them on `titles`/`messages` yields the
inherited member (a function, or the prototype object for `__proto__`),
never `undefined`. -/
def objectProtoKeys : List String :=
  ["constructor", "hasOwnProperty", "isPrototypeOf", "propertyIsEnumerable",
   "toLocaleString", "toString", "valueOf", "__proto__", "__defineGetter__",
   "__defineSetter__", "__lookupGetter__", "__lookupSetter__"]

/-- The value of a JS property read on one of the two formatter objects:
an own property (a string), a member inherited from `Object.prototype`
(recorded by its name; always a truthy non-string), or `undefined`. -/
inductive JsValue where
  | str : String → JsValue
  | inherited : String → JsValue
  | undef : JsValue
  deriving DecidableEq, Repr

/-- JS truthiness of such a value: only the empty string and `undefined`
are falsy; every inherited member is a function or object, hence truthy. -/
def JsValue.truthy : JsValue → Bool
  | JsValue.str s => s ≠ ""
  | JsValue.inherited _ => true
  | JsValue.undef => false

/-- The JS property read `obj[k]` on an object literal: own properties
first, then the `Object.prototype` chain, then `undefined`. -/
def jsProp (pairs : List (String × String)) (k : String) : JsValue :=
  match pairs.lookup k with
  | some v => JsValue.str v
  | none => if k ∈ objectProtoKeys then JsValue.inherited k else JsValue.undef

/-- The JS expression `v || d` on such values. -/
def jsOrV (v d : JsValue) : JsValue :=
  if v.truthy then v else d

/-- `getTitleForType` (server.js:159-168): `titles[type] || fallback`.
The property read consults `titles`' own properties and then
`Object.prototype`; an absent `type` reads the property `undefined`
(the string the key coerces to). -/
def getTitleForType (ty : Option String) : JsValue :=
  jsOrV (jsProp titles (ty.getD "undefined")) (JsValue.str "New Notification")

/-- `getMessageForType` (server.js:173-182): `messages[type] || fallback`,
with the same property-read semantics as `getTitleForType`. -/
def getMessageForType (ty : Option String) : JsValue :=
  jsOrV (jsProp messages (ty.getD "undefined"))
    (JsValue.str "You have a new notification")

/-- The String-valued restriction of `getTitleForType` used by the feed
embedding below: it equals `getTitleForType` whenever that value is a
string, which is every input except an `Object.prototype` member name
with no own property (see `formatters_agree_off_proto`); on those inputs
the program would hand the inherited member itself to the dispatcher,
which the String-typed payload of this embedding cannot represent. -/
def defaultTitle (ty : Option String) : String :=
  jsOr (ty.bind fun t => titles.lookup t) "New Notification"

/-- The String-valued restriction of `getMessageForType`, with the same
agreement domain as `defaultTitle`. -/
def defaultMessage (ty : Option String) : String :=
  jsOr (ty.bind fun t => messages.lookup t) "You have a new notification"

/-- The row inserted into the `notifications` table, as destructured by the
feed listener (server.js:132); every field may be absent. -/
structure FeedEvent where
  user_id : Option String
  type : Option String
  title : Option String
  message : Option String
  post_id : Option String
  comment_id : Option String
  sender_id : Option String
  deriving DecidableEq, Repr

/-- The aux-data object built at server.js:140-144: every related-entity
identifier is coerced with `x || ''`. -/
def feedAuxData (ev : FeedEvent) : List (String × String) :=
  [("post_id", jsOr ev.post_id ""),
   ("comment_id", jsOr ev.comment_id ""),
   ("sender_id", jsOr ev.sender_id "")]

/-- The body of the feed listener's per-event callback before its catch
(server.js:129-145): fill in default title/body, build the aux data, and
dispatch.  An absent `user_id` or `type` reaches `sendNotification` as the
JS `undefined`, modelled as the empty string. -/
def handleFeedEvent (ev : FeedEvent) (lookup : LookupResult)
    (deliver : FcmMessage → Except String String) :
    Except String (Option String) × List FcmMessage :=
  sendNotification (ev.user_id.getD "")
    (jsOr ev.title (defaultTitle ev.type))
    (jsOr ev.message (defaultMessage ev.type))
    (ev.type.getD "") (feedAuxData ev) lookup deliver

/-- What the listener's callback does with one event: `done` when the try
block finishes, `logged` when the catch block logs a thrown error.  The
callback never re-raises, so this type has no "propagated exception" case. -/
inductive EventOutcome where
  | done : Option String → EventOutcome
  | logged : String → EventOutcome
  deriving DecidableEq, Repr

/-- One event-feed triple: the event together with the lookup outcome and
delivery behaviour in effect when it is processed. -/
abbrev FeedStep := FeedEvent × LookupResult × (FcmMessage → Except String String)

/-- The callback of server.js:127-149 on one event: the try/catch around
`handleFeedEvent` turns a thrown error into a logged outcome. -/
def listenerStep (ev : FeedEvent) (lookup : LookupResult)
    (deliver : FcmMessage → Except String String) : EventOutcome :=
  match (handleFeedEvent ev lookup deliver).1 with
  | Except.ok id => EventOutcome.done id
  | Except.error e => EventOutcome.logged e

/-- The subscription of `startListeningToNotifications` over a finite trace
of insert events: each event runs the callback; no outcome stops the feed. -/
def runListener (events : List FeedStep) : List EventOutcome :=
  events.map fun s => listenerStep s.1 s.2.1 s.2.2

/-! ### Helper lemmas -/

/-- Association-list lookup distributes over append, first list first. -/
theorem lookup_append (k : String) (l1 l2 : List (String × String)) :
    List.lookup k (l1 ++ l2) = (List.lookup k l1).or (List.lookup k l2) := by
  induction l1 with
  | nil => simp
  | cons kv t ih =>
    obtain ⟨a, b⟩ := kv
    simp only [List.cons_append, List.lookup]
    cases k == a <;> simp [ih]

/-- JS-object lookup on an appended object: the later (right) part wins. -/
theorem objGet_append (xs ys : List (String × String)) (k : String) :
    objGet (xs ++ ys) k = (objGet ys k).or (objGet xs k) := by
  unfold objGet
  rw [List.reverse_append, lookup_append]

/-- Every bail-out case of the token check resolves to `none`. -/
theorem resolveToken_eq_none (r : LookupResult)
    (h : r.error.isSome = true ∨ r.data = none ∨
         ∃ p, r.data = some p ∧ p.fcm_token = none) :
    resolveToken r = none := by
  unfold resolveToken
  rcases h with h | h | ⟨p, hp, ht⟩
  · simp [h]
  · by_cases he : r.error.isSome <;> simp [he, h]
  · by_cases he : r.error.isSome <;> simp [he, hp, ht]

/-- Away from the `Object.prototype` member names, the faithful formatters
return strings and coincide with the String-valued restrictions the feed
embedding dispatches. -/
theorem formatters_agree_off_proto (ty : Option String)
    (hk : (ty.getD "undefined") ∉ objectProtoKeys) :
    getTitleForType ty = JsValue.str (defaultTitle ty) ∧
    getMessageForType ty = JsValue.str (defaultMessage ty) := by
  cases ty with
  | none => exact ⟨rfl, rfl⟩
  | some t =>
    have hk' : t ∉ objectProtoKeys := by simpa using hk
    constructor
    · cases hl : titles.lookup t with
      | some v =>
        simp [getTitleForType, defaultTitle, jsProp, jsOrV, JsValue.truthy,
          jsOr, hl]
        by_cases hv : v = "" <;> simp [hv]
      | none =>
        simp [getTitleForType, defaultTitle, jsProp, jsOrV, JsValue.truthy,
          jsOr, hl, hk']
    · cases hl : messages.lookup t with
      | some v =>
        simp [getMessageForType, defaultMessage, jsProp, jsOrV,
          JsValue.truthy, jsOr, hl]
        by_cases hv : v = "" <;> simp [hv]
      | none =>
        simp [getMessageForType, defaultMessage, jsProp, jsOrV,
          JsValue.truthy, jsOr, hl, hk']

/-- Every message handed to the delivery service during `sendNotification`
is the one `buildMessage` constructs from the resolved token. -/
theorem mem_sendNotification_sent (userId title body ty : String)
    (aux : List (String × String)) (lookup : LookupResult)
    (deliver : FcmMessage → Except String String) (m : FcmMessage)
    (hm : m ∈ (sendNotification userId title body ty aux lookup deliver).2) :
    ∃ tok, resolveToken lookup = some tok ∧ m = buildMessage title body ty aux tok := by
  cases hr : resolveToken lookup with
  | none => simp [sendNotification, hr] at hm
  | some tok =>
    refine ⟨tok, rfl, ?_⟩
    cases hd : deliver (buildMessage title body ty aux tok) with
    | ok resp => simp [sendNotification, hr, hd] at hm; exact hm
    | error e => simp [sendNotification, hr, hd] at hm; exact hm

/-! ### Concrete fixtures used by the witnesses -/

/-- A delivery function that always succeeds with identifier `msg-123`. -/
def deliverOk : FcmMessage → Except String String :=
  fun _ => Except.ok "msg-123"

/-- A delivery function that always throws `boom`. -/
def deliverFail : FcmMessage → Except String String :=
  fun _ => Except.error "boom"

/-- A lookup that finds a profile holding the token `tok-1`. -/
def lookupWithToken : LookupResult :=
  { data := some { fcm_token := some "tok-1" }, error := none }

/-- A lookup that finds no profile record. -/
def lookupNoRecord : LookupResult :=
  { data := none, error := none }

/-- A lookup that finds a profile whose token column is NULL. -/
def lookupNoTokenField : LookupResult :=
  { data := some { fcm_token := none }, error := none }

/-- A lookup that fails in transport: the error field is set. -/
def lookupError : LookupResult :=
  { data := none, error := some "network down" }

/-- A feed event with no title, no body and no related-entity identifiers. -/
def evAllAbsent : FeedEvent :=
  { user_id := some "u1", type := some "like", title := none, message := none,
    post_id := none, comment_id := none, sender_id := none }

/-- A manual-send request with every required field present and truthy. -/
def reqFull : SendRequest :=
  { userId := some "u1", title := some "t", body := some "b",
    type := some "like", data := none }

/-- A manual-send request whose `title` field is absent. -/
def reqMissingTitle : SendRequest :=
  { userId := some "u1", title := none, body := some "b",
    type := some "like", data := none }

/-- A manual-send request whose `title` field is present but empty. -/
def reqEmptyTitle : SendRequest :=
  { userId := some "u1", title := some "", body := some "b",
    type := some "like", data := none }

/-! ### Claim theorems -/

/-- Claim C1: for every user whose profile lookup yields no record, no
`fcm_token` value, or a lookup error, `sendNotification` returns `null`
(a no-op), never calls the push-delivery service, and never constructs a
delivery payload (the list of delivery calls made is empty). -/
theorem sendNotification_absent_noop (userId title body ty : String)
    (aux : List (String × String)) (lookup : LookupResult)
    (deliver : FcmMessage → Except String String)
    (h : lookup.error.isSome = true ∨ lookup.data = none ∨
         ∃ p, lookup.data = some p ∧ p.fcm_token = none) :
    sendNotification userId title body ty aux lookup deliver =
      (Except.ok none, []) := by
  simp [sendNotification, resolveToken_eq_none lookup h]

/-- Witness for C1: the no-record lookup yields a no-op with no delivery. -/
theorem sendNotification_absent_noop_witness :
    sendNotification "u1" "t" "b" "like" [] lookupNoRecord deliverOk =
      (Except.ok none, []) :=
  sendNotification_absent_noop "u1" "t" "b" "like" [] lookupNoRecord deliverOk
    (Or.inr (Or.inl rfl))

/-- Claim C2: every message handed to the delivery service carries no
native notification/display field, its notification content sits entirely
in the `data` mapping (`type`, `title`, `body`, then the aux pairs), and
the only other fields are the resolved token and the two per-platform
priority hints (`android.priority = high`, `apns-priority = 10`). -/
theorem sendNotification_payload_data_only (userId title body ty : String)
    (aux : List (String × String)) (lookup : LookupResult)
    (deliver : FcmMessage → Except String String) (m : FcmMessage)
    (hm : m ∈ (sendNotification userId title body ty aux lookup deliver).2) :
    m.notification = none ∧
    m.androidPriority = "high" ∧
    m.apnsPriorityHeader = "10" ∧
    m.data = [("type", ty), ("title", title), ("body", body)] ++ aux ∧
    resolveToken lookup = some m.token := by
  obtain ⟨tok, htok, hmsg⟩ :=
    mem_sendNotification_sent userId title body ty aux lookup deliver m hm
  subst hmsg
  exact ⟨rfl, rfl, rfl, rfl, htok⟩

/-- Witness for C2: a concrete successful dispatch with token `tok-1`. -/
theorem sendNotification_payload_data_only_witness :
    (buildMessage "t" "b" "like" [] "tok-1").notification = none ∧
    (buildMessage "t" "b" "like" [] "tok-1").androidPriority = "high" ∧
    (buildMessage "t" "b" "like" [] "tok-1").apnsPriorityHeader = "10" ∧
    (buildMessage "t" "b" "like" [] "tok-1").data =
      [("type", "like"), ("title", "t"), ("body", "b")] ++ [] ∧
    resolveToken lookupWithToken =
      some (buildMessage "t" "b" "like" [] "tok-1").token :=
  sendNotification_payload_data_only "u1" "t" "b" "like" [] lookupWithToken
    deliverOk (buildMessage "t" "b" "like" [] "tok-1")
    (by simp [sendNotification, resolveToken, lookupWithToken, deliverOk])

/-- Claim C7: the three "absent" cases — lookup transport failure, no
profile record, profile with an unset token field — produce the same
outcome of `sendNotification` (`null`, no delivery call), so callers
cannot distinguish them. -/
theorem resolver_absent_indistinguishable (userId title body ty : String)
    (aux : List (String × String))
    (deliver : FcmMessage → Except String String)
    (r1 r2 r3 : LookupResult)
    (h1 : r1.error.isSome = true)
    (h2 : r2.data = none)
    (h3 : ∃ p, r3.data = some p ∧ p.fcm_token = none) :
    sendNotification userId title body ty aux r1 deliver = (Except.ok none, []) ∧
    sendNotification userId title body ty aux r2 deliver =
      sendNotification userId title body ty aux r1 deliver ∧
    sendNotification userId title body ty aux r3 deliver =
      sendNotification userId title body ty aux r1 deliver := by
  have e1 : resolveToken r1 = none := resolveToken_eq_none r1 (Or.inl h1)
  have e2 : resolveToken r2 = none := resolveToken_eq_none r2 (Or.inr (Or.inl h2))
  have e3 : resolveToken r3 = none := resolveToken_eq_none r3 (Or.inr (Or.inr h3))
  simp [sendNotification, e1, e2, e3]

/-- Witness for C7: transport failure, missing record and NULL token field
all yield the identical no-op outcome. -/
theorem resolver_absent_indistinguishable_witness :
    sendNotification "u1" "t" "b" "like" [] lookupError deliverOk =
      (Except.ok none, []) ∧
    sendNotification "u1" "t" "b" "like" [] lookupNoRecord deliverOk =
      sendNotification "u1" "t" "b" "like" [] lookupError deliverOk ∧
    sendNotification "u1" "t" "b" "like" [] lookupNoTokenField deliverOk =
      sendNotification "u1" "t" "b" "like" [] lookupError deliverOk :=
  resolver_absent_indistinguishable "u1" "t" "b" "like" [] deliverOk
    lookupError lookupNoRecord lookupNoTokenField
    rfl rfl ⟨{ fcm_token := none }, rfl, rfl⟩

/-- Claim C8: once a token is resolved, a delivery-call exception is
re-raised unchanged to the caller after exactly one delivery attempt (no
retry, no queuing), and a delivery success propagates the service's
response identifier unchanged. -/
theorem sendNotification_delivery_propagation (userId title body ty : String)
    (aux : List (String × String)) (lookup : LookupResult)
    (deliver : FcmMessage → Except String String) (tok : String)
    (htok : resolveToken lookup = some tok) :
    (∀ e, deliver (buildMessage title body ty aux tok) = Except.error e →
      sendNotification userId title body ty aux lookup deliver =
        (Except.error e, [buildMessage title body ty aux tok])) ∧
    (∀ id, deliver (buildMessage title body ty aux tok) = Except.ok id →
      sendNotification userId title body ty aux lookup deliver =
        (Except.ok (some id), [buildMessage title body ty aux tok])) := by
  constructor
  · intro e hd
    simp [sendNotification, htok, hd]
  · intro id hd
    simp [sendNotification, htok, hd]

/-- Witness for C8: a throwing delivery call re-raises `boom`; a
successful one returns `msg-123`. -/
theorem sendNotification_delivery_propagation_witness :
    sendNotification "u1" "t" "b" "like" [] lookupWithToken deliverFail =
      (Except.error "boom", [buildMessage "t" "b" "like" [] "tok-1"]) ∧
    sendNotification "u1" "t" "b" "like" [] lookupWithToken deliverOk =
      (Except.ok (some "msg-123"), [buildMessage "t" "b" "like" [] "tok-1"]) :=
  ⟨(sendNotification_delivery_propagation "u1" "t" "b" "like" []
      lookupWithToken deliverFail "tok-1" rfl).1 "boom" rfl,
   (sendNotification_delivery_propagation "u1" "t" "b" "like" []
      lookupWithToken deliverOk "tok-1" rfl).2 "msg-123" rfl⟩

/-- Claim C10: when the aux data carries a key named `type`, `title` or
`body`, its value overrides the corresponding base field in the payload's
data mapping, because the aux spread comes after the base fields. -/
theorem auxData_overrides_base_fields (userId title body ty : String)
    (aux : List (String × String)) (lookup : LookupResult)
    (deliver : FcmMessage → Except String String) (k v : String)
    (hk : k = "type" ∨ k = "title" ∨ k = "body")
    (hv : objGet aux k = some v) :
    ∀ m ∈ (sendNotification userId title body ty aux lookup deliver).2,
      objGet m.data k = some v := by
  intro m hm
  obtain ⟨tok, htok, hmsg⟩ :=
    mem_sendNotification_sent userId title body ty aux lookup deliver m hm
  subst hmsg
  show objGet ([("type", ty), ("title", title), ("body", body)] ++ aux) k = some v
  rw [objGet_append, hv]
  rfl

/-- Witness for C10: an aux pair `title ↦ OVERRIDE` shadows the `title`
argument in the delivered payload. -/
theorem auxData_overrides_base_fields_witness :
    objGet (buildMessage "t" "b" "like" [("title", "OVERRIDE")] "tok-1").data
      "title" = some "OVERRIDE" :=
  auxData_overrides_base_fields "u1" "t" "b" "like" [("title", "OVERRIDE")]
    lookupWithToken deliverOk "title" "OVERRIDE" (Or.inr (Or.inl rfl)) rfl
    (buildMessage "t" "b" "like" [("title", "OVERRIDE")] "tok-1")
    (by simp [sendNotification, resolveToken, lookupWithToken, deliverOk])

/-- Claim C3: the manual-send route returns 400 `Missing required fields`
without any dispatch when a required field is missing; when validation
passes and dispatch completes, 200 with the delivery identifier (or null);
when dispatch throws, 500 with the failure message. -/
theorem postSend_spec (req : SendRequest) (lookup : LookupResult)
    (deliver : FcmMessage → Except String String) :
    ((req.userId = none ∨ req.title = none ∨ req.body = none ∨
        req.type = none) →
      handlePostSend req lookup deliver =
        (HttpResponse.badRequest "Missing required fields", [])) ∧
    (truthyStr req.userId = true → truthyStr req.title = true →
     truthyStr req.body = true → truthyStr req.type = true →
      (∀ id, (sendNotification (req.userId.getD "") (req.title.getD "")
          (req.body.getD "") (req.type.getD "") (req.data.getD [])
          lookup deliver).1 = Except.ok id →
        (handlePostSend req lookup deliver).1 = HttpResponse.ok id) ∧
      (∀ e, (sendNotification (req.userId.getD "") (req.title.getD "")
          (req.body.getD "") (req.type.getD "") (req.data.getD [])
          lookup deliver).1 = Except.error e →
        (handlePostSend req lookup deliver).1 = HttpResponse.serverError e)) := by
  constructor
  · intro h
    rcases h with h | h | h | h <;> simp [handlePostSend, truthyStr, h]
  · intro h1 h2 h3 h4
    constructor
    · intro id hid
      simp [handlePostSend, h1, h2, h3, h4, hid]
    · intro e he
      simp [handlePostSend, h1, h2, h3, h4, he]

/-- Witness for C3: a request missing `title` is rejected with 400; a full
request is answered 200 with the delivery identifier when delivery
succeeds, and 500 with the message when delivery throws. -/
theorem postSend_spec_witness :
    handlePostSend reqMissingTitle lookupWithToken deliverOk =
      (HttpResponse.badRequest "Missing required fields", []) ∧
    (handlePostSend reqFull lookupWithToken deliverOk).1 =
      HttpResponse.ok (some "msg-123") ∧
    (handlePostSend reqFull lookupWithToken deliverFail).1 =
      HttpResponse.serverError "boom" :=
  ⟨(postSend_spec reqMissingTitle lookupWithToken deliverOk).1
     (Or.inr (Or.inl rfl)),
   ((postSend_spec reqFull lookupWithToken deliverOk).2 rfl rfl rfl rfl).1
     (some "msg-123") rfl,
   ((postSend_spec reqFull lookupWithToken deliverFail).2 rfl rfl rfl rfl).2
     "boom" rfl⟩

/-- Claim C9: a request in which every required field is present but at
least one is the empty string (the falsy string) is rejected with 400 and
never reaches the dispatcher — validation tests truthiness, not presence. -/
theorem postSend_falsy_rejected (req : SendRequest) (lookup : LookupResult)
    (deliver : FcmMessage → Except String String)
    (hfalsy : req.userId = some "" ∨ req.title = some "" ∨
              req.body = some "" ∨ req.type = some "") :
    handlePostSend req lookup deliver =
      (HttpResponse.badRequest "Missing required fields", []) := by
  rcases hfalsy with h | h | h | h <;> simp [handlePostSend, truthyStr, h]

/-- Witness for C9: all four fields present, `title` empty, yields 400
with no dispatch. -/
theorem postSend_falsy_rejected_witness :
    handlePostSend reqEmptyTitle lookupWithToken deliverOk =
      (HttpResponse.badRequest "Missing required fields", []) :=
  postSend_falsy_rejected reqEmptyTitle lookupWithToken deliverOk
    (Or.inr (Or.inl rfl))

/-- Claim C4: the aux data built from a feed event always binds the keys
`post_id`, `comment_id` and `sender_id` to string values, an absent
identifier becomes the empty string (never an absent key), and those
bindings are what the dispatched payload's data mapping answers for the
three keys. -/
theorem feed_auxData_complete (ev : FeedEvent) :
    objGet (feedAuxData ev) "post_id" = some (jsOr ev.post_id "") ∧
    objGet (feedAuxData ev) "comment_id" = some (jsOr ev.comment_id "") ∧
    objGet (feedAuxData ev) "sender_id" = some (jsOr ev.sender_id "") ∧
    (ev.post_id = none → objGet (feedAuxData ev) "post_id" = some "") ∧
    (ev.comment_id = none → objGet (feedAuxData ev) "comment_id" = some "") ∧
    (ev.sender_id = none → objGet (feedAuxData ev) "sender_id" = some "") ∧
    (∀ lookup deliver, ∀ m ∈ (handleFeedEvent ev lookup deliver).2,
      objGet m.data "post_id" = some (jsOr ev.post_id "") ∧
      objGet m.data "comment_id" = some (jsOr ev.comment_id "") ∧
      objGet m.data "sender_id" = some (jsOr ev.sender_id "")) := by
  have hp : objGet (feedAuxData ev) "post_id" = some (jsOr ev.post_id "") := rfl
  have hc : objGet (feedAuxData ev) "comment_id" = some (jsOr ev.comment_id "") := rfl
  have hs : objGet (feedAuxData ev) "sender_id" = some (jsOr ev.sender_id "") := rfl
  refine ⟨hp, hc, hs, ?_, ?_, ?_, ?_⟩
  · intro h; rw [hp, h]; rfl
  · intro h; rw [hc, h]; rfl
  · intro h; rw [hs, h]; rfl
  · intro lookup deliver m hm
    simp only [handleFeedEvent] at hm
    obtain ⟨tok, htok, hmsg⟩ := mem_sendNotification_sent _ _ _ _ _ _ _ m hm
    subst hmsg
    refine ⟨?_, ?_, ?_⟩ <;>
      · show objGet (_ ++ feedAuxData ev) _ = _
        rw [objGet_append]
        first
          | rw [hp]; rfl
          | rw [hc]; rfl
          | rw [hs]; rfl

/-- Witness for C4: an event with no related-entity identifiers yields
empty-string bindings for all three keys, also inside a dispatched
payload. -/
theorem feed_auxData_complete_witness :
    objGet (feedAuxData evAllAbsent) "post_id" = some "" ∧
    objGet (feedAuxData evAllAbsent) "comment_id" = some "" ∧
    objGet (feedAuxData evAllAbsent) "sender_id" = some "" ∧
    objGet (buildMessage "❤️ New Like" "Someone liked your post" "like"
      (feedAuxData evAllAbsent) "tok-1").data "post_id" = some "" := by
  have h := feed_auxData_complete evAllAbsent
  refine ⟨h.2.2.2.1 rfl, h.2.2.2.2.1 rfl, h.2.2.2.2.2.1 rfl, ?_⟩
  exact (h.2.2.2.2.2.2 lookupWithToken deliverOk
    (buildMessage "❤️ New Like" "Someone liked your post" "like"
      (feedAuxData evAllAbsent) "tok-1")
    (by simp [handleFeedEvent, sendNotification, resolveToken, lookupWithToken,
          deliverOk, evAllAbsent, defaultTitle, defaultMessage, titles,
          messages, jsOr, List.lookup])).1

/-- Claim C5 counterexample: at the in-domain input `toString` the program
does not return the generic fallback — the property read finds the
inherited `Object.prototype.toString`, which is truthy, so `||` passes the
inherited member through. -/
theorem formatter_proto_counterexample :
    getTitleForType (some "toString") = JsValue.inherited "toString" ∧
    getMessageForType (some "toString") = JsValue.inherited "toString" ∧
    getTitleForType (some "toString") ≠ JsValue.str "New Notification" ∧
    getMessageForType (some "toString") ≠
      JsValue.str "You have a new notification" := by
  decide

/-- Claim C5 as amended: the two formatters are pure total functions: each
of the five recognised categories maps to its fixed title/body pair; an
input naming an inherited `Object.prototype` member returns that truthy
inherited member instead of the fallback; every other input, the absent
category included, maps to the generic fallback. -/
theorem formatter_spec (ty : Option String) :
    (getTitleForType ty, getMessageForType ty) =
      if ty = some "like" then
        (JsValue.str "❤️ New Like", JsValue.str "Someone liked your post")
      else if ty = some "comment" then
        (JsValue.str "💬 New Comment",
         JsValue.str "Someone commented on your post")
      else if ty = some "follow" then
        (JsValue.str "👤 New Follower",
         JsValue.str "Someone started following you")
      else if ty = some "reply" then
        (JsValue.str "↩️ New Reply",
         JsValue.str "Someone replied to your comment")
      else if ty = some "mention" then
        (JsValue.str "@️ Mention", JsValue.str "Someone mentioned you")
      else if (ty.getD "undefined") ∈ objectProtoKeys then
        (JsValue.inherited (ty.getD "undefined"),
         JsValue.inherited (ty.getD "undefined"))
      else
        (JsValue.str "New Notification",
         JsValue.str "You have a new notification") := by
  cases ty with
  | none => decide
  | some s =>
    rcases eq_or_ne s "like" with h | h1
    · subst h; decide
    rcases eq_or_ne s "comment" with h | h2
    · subst h; decide
    rcases eq_or_ne s "follow" with h | h3
    · subst h; decide
    rcases eq_or_ne s "reply" with h | h4
    · subst h; decide
    rcases eq_or_ne s "mention" with h | h5
    · subst h; decide
    have b1 : (s == "like") = false := beq_eq_false_iff_ne.mpr h1
    have b2 : (s == "comment") = false := beq_eq_false_iff_ne.mpr h2
    have b3 : (s == "follow") = false := beq_eq_false_iff_ne.mpr h3
    have b4 : (s == "reply") = false := beq_eq_false_iff_ne.mpr h4
    have b5 : (s == "mention") = false := beq_eq_false_iff_ne.mpr h5
    by_cases hp : s ∈ objectProtoKeys
    · simp [getTitleForType, getMessageForType, jsProp, jsOrV, JsValue.truthy,
        titles, messages, List.lookup, h1, h2, h3, h4, h5,
        b1, b2, b3, b4, b5, hp]
    · simp [getTitleForType, getMessageForType, jsProp, jsOrV, JsValue.truthy,
        titles, messages, List.lookup, h1, h2, h3, h4, h5,
        b1, b2, b3, b4, b5, hp]

/-- Claim C6: the listener processes every event of a trace through the
per-event callback; an event whose processing throws is recorded as a
logged outcome (caught, not re-raised), and the events after it are still
processed, each by its own callback run. -/
theorem listener_survives_event_failure (pre post : List FeedStep)
    (bad : FeedStep) :
    runListener (pre ++ bad :: post) =
      runListener pre ++ listenerStep bad.1 bad.2.1 bad.2.2 ::
        runListener post ∧
    (∀ e, (handleFeedEvent bad.1 bad.2.1 bad.2.2).1 = Except.error e →
      listenerStep bad.1 bad.2.1 bad.2.2 = EventOutcome.logged e) := by
  constructor
  · simp [runListener]
  · intro e he
    simp [listenerStep, he]

/-- Witness for C6: in a three-event trace whose middle event hits a
throwing delivery call, the failure is logged and the third event is
still processed. -/
theorem listener_survives_event_failure_witness :
    runListener [(evAllAbsent, lookupWithToken, deliverOk),
                 (evAllAbsent, lookupWithToken, deliverFail),
                 (evAllAbsent, lookupNoRecord, deliverOk)] =
      runListener [(evAllAbsent, lookupWithToken, deliverOk)] ++
        listenerStep evAllAbsent lookupWithToken deliverFail ::
          runListener [(evAllAbsent, lookupNoRecord, deliverOk)] ∧
    listenerStep evAllAbsent lookupWithToken deliverFail =
      EventOutcome.logged "boom" :=
  ⟨(listener_survives_event_failure
      [(evAllAbsent, lookupWithToken, deliverOk)]
      [(evAllAbsent, lookupNoRecord, deliverOk)]
      (evAllAbsent, lookupWithToken, deliverFail)).1,
   (listener_survives_event_failure
      [(evAllAbsent, lookupWithToken, deliverOk)]
      [(evAllAbsent, lookupNoRecord, deliverOk)]
      (evAllAbsent, lookupWithToken, deliverFail)).2 "boom" rfl⟩

end Redora
